import Mathlib

/-!
Shallow embedding of the vibeobs daemon sources (window_monitor.py,
obs_controller.py, config_manager.py) together with theorems settling the
specification claims about them.
-/

/-! ### WindowMonitor (src/window_monitor.py) -/

/-- Mutable state of `WindowMonitor`: `last_active_app` and `_app_history`. -/
structure MonitorState where
  lastActiveApp : Option String
  appHistory : List String
deriving DecidableEq, Repr

/-- `self._max_history = 10`. -/
def maxHistory : Nat := 10

/-- Fresh monitor from `WindowMonitor.__init__`. -/
def initMonitor : MonitorState := { lastActiveApp := none, appHistory := [] }

/-- `WindowMonitor._add_to_history`: append, then `pop(0)` while over capacity. -/
def add_to_history (history : List String) (appName : String) : List String :=
  let h := history ++ [appName]
  if h.length > maxHistory then h.tail else h

/-- The history produced when a change is detected: the previous app is pushed
only when it is truthy (`if self.last_active_app:`). -/
def pushedHistory (st : MonitorState) : List String :=
  match st.lastActiveApp with
  | some prev => if prev ≠ "" then add_to_history st.appHistory prev else st.appHistory
  | none => st.appHistory

/-- `WindowMonitor.has_app_changed`: true change iff the probe value is truthy
and differs from the stored one; on change the old value is pushed to history. -/
def has_app_changed (st : MonitorState) (currentApp : String) : Bool × MonitorState :=
  if currentApp ≠ "" ∧ some currentApp ≠ st.lastActiveApp then
    (true, { lastActiveApp := some currentApp, appHistory := pushedHistory st })
  else (false, st)

/-- `WindowMonitor.get_last_app`: last history entry, `None` when empty. -/
def get_last_app (st : MonitorState) : Option String := st.appHistory.getLast?

/-- The `(old_app, new_app)` pair each callback receives. -/
structure Notification where
  previous : Option String
  current : String
deriving DecidableEq, Repr

/-- The callback loop of `check_and_notify`: every callback is invoked with the
same pair; an exception from one is caught and logged, and iteration goes on.
Each callback behaves as an `Except` value (its raised message or success). -/
def notify_callbacks : List (Except String Unit) → Notification → List Notification × List String
  | [], _ => ([], [])
  | r :: rest, notif =>
    let t := notify_callbacks rest notif
    match r with
    | .ok _ => (notif :: t.1, t.2)
    | .error e => (notif :: t.1, e :: t.2)

/-- Outcome of one `check_and_notify` call: its return value, the monitor state
afterwards, the notifications delivered, and the caught callback errors. -/
structure CheckResult where
  changedApp : Option String
  state : MonitorState
  invocations : List Notification
  loggedErrors : List String
deriving DecidableEq, Repr

/-- `WindowMonitor.check_and_notify`, with the probe result
(`get_active_app`, `None` on probe failure) passed in explicitly. -/
def check_and_notify (st : MonitorState) (callbackRuns : List (Except String Unit))
    (probe : Option String) : CheckResult :=
  match probe with
  | none => ⟨none, st, [], []⟩
  | some app =>
    if app = "" then ⟨none, st, [], []⟩
    else
      let c := has_app_changed st app
      if c.1 then
        let notif : Notification := ⟨get_last_app c.2, app⟩
        let t := notify_callbacks callbackRuns notif
        ⟨some app, c.2, t.1, t.2⟩
      else ⟨none, c.2, [], []⟩

/-- Feed a sequence of probe results through `check_and_notify` (one ordinary
subscriber registered), collecting the emitted transitions. -/
def run_probes (st : MonitorState) : List (Option String) → MonitorState × List Notification
  | [] => (st, [])
  | p :: rest =>
    let r := check_and_notify st [Except.ok ()] p
    let t := run_probes r.state rest
    (t.1, r.invocations ++ t.2)

/-! Specification-side notions for the transition claims. -/

/-- The truthy probe values, in order (falsy probe results are ignored). -/
def validProbes (probes : List (Option String)) : List String :=
  (probes.filterMap id).filter (fun s => decide (s ≠ ""))

/-- One representative per maximal run of equal consecutive values, relative to
a stored previous value `o`. -/
def runsFrom (o : Option String) : List String → List String
  | [] => []
  | c :: rest => if some c = o then runsFrom o rest else c :: runsFrom (some c) rest

/-- Number of maximal runs, relative to a stored previous value `o`. -/
def countRunsFrom (o : Option String) : List String → Nat
  | [] => 0
  | c :: rest => (if some c = o then 0 else 1) + countRunsFrom (some c) rest

/-- Number of maximal runs of equal consecutive values. -/
def countRuns (l : List String) : Nat := countRunsFrom none l

/-- The expected transition list: each value paired with its predecessor. -/
def chainNotifs (prev : Option String) : List String → List Notification
  | [] => []
  | c :: rest => ⟨prev, c⟩ :: chainNotifs (some c) rest

/-! Helper lemmas about the monitor. -/

theorem getLast?_add_to_history (h : List String) (a : String) :
    (add_to_history h a).getLast? = some a := by
  cases h with
  | nil => rfl
  | cons x xs =>
    unfold add_to_history
    by_cases hl : ((x :: xs) ++ [a]).length > maxHistory
    · rw [if_pos hl]
      have : ((x :: xs) ++ [a]).tail = xs ++ [a] := rfl
      rw [this, List.getLast?_concat]
    · rw [if_neg hl, List.getLast?_concat]

/-- Reachability invariant of the monitor's state: the stored app is never the
empty string, and the history is empty while no app has been stored. -/
def MInv (st : MonitorState) : Prop :=
  (st.lastActiveApp = none → st.appHistory = []) ∧ st.lastActiveApp ≠ some ""

theorem initMonitor_inv : MInv initMonitor := by
  constructor
  · intro _; rfl
  · intro h; cases h

theorem has_app_changed_of_eq (st : MonitorState) (app : String)
    (h : some app = st.lastActiveApp) : has_app_changed st app = (false, st) := by
  unfold has_app_changed
  rw [if_neg]
  intro hc
  exact hc.2 h

theorem has_app_changed_of_ne (st : MonitorState) (app : String)
    (ha : app ≠ "") (h : some app ≠ st.lastActiveApp) :
    has_app_changed st app = (true, { lastActiveApp := some app, appHistory := pushedHistory st }) := by
  unfold has_app_changed
  rw [if_pos ⟨ha, h⟩]

theorem previous_of_change (st : MonitorState) (hInv : MInv st) :
    (pushedHistory st).getLast? = st.lastActiveApp := by
  cases hst : st.lastActiveApp with
  | none =>
    have hh := hInv.1 hst
    unfold pushedHistory
    rw [hst]
    show st.appHistory.getLast? = none
    rw [hh]
    rfl
  | some prev =>
    have hprev : prev ≠ "" := by
      intro hcontra
      exact hInv.2 (by rw [hst, hcontra])
    unfold pushedHistory
    rw [hst]
    show (if prev ≠ "" then add_to_history st.appHistory prev else st.appHistory).getLast?
        = some prev
    rw [if_pos hprev, getLast?_add_to_history]

theorem inv_of_change (st : MonitorState) (app : String) (ha : app ≠ "") (_hInv : MInv st) :
    MInv { lastActiveApp := some app, appHistory := pushedHistory st } := by
  constructor
  · intro h; cases h
  · intro h
    exact ha (by injection h)

theorem check_and_notify_some (st : MonitorState) (cbs : List (Except String Unit))
    (app : String) :
    check_and_notify st cbs (some app) =
      if app = "" then ⟨none, st, [], []⟩
      else
        if (has_app_changed st app).1 then
          ⟨some app, (has_app_changed st app).2,
            (notify_callbacks cbs ⟨get_last_app (has_app_changed st app).2, app⟩).1,
            (notify_callbacks cbs ⟨get_last_app (has_app_changed st app).2, app⟩).2⟩
        else ⟨none, (has_app_changed st app).2, [], []⟩ := rfl

theorem run_probes_snd_cons (st : MonitorState) (p : Option String)
    (rest : List (Option String)) :
    (run_probes st (p :: rest)).2 =
      (check_and_notify st [Except.ok ()] p).invocations ++
        (run_probes (check_and_notify st [Except.ok ()] p).state rest).2 := rfl

theorem run_probes_fst_cons (st : MonitorState) (p : Option String)
    (rest : List (Option String)) :
    (run_probes st (p :: rest)).1 =
      (run_probes (check_and_notify st [Except.ok ()] p).state rest).1 := rfl

theorem check_skip (st : MonitorState) (cbs : List (Except String Unit)) (app : String)
    (happ : ¬app = "") (heq : some app = st.lastActiveApp) :
    check_and_notify st cbs (some app) = ⟨none, st, [], []⟩ := by
  rw [check_and_notify_some, if_neg happ, has_app_changed_of_eq st app heq]
  rfl

theorem check_fire (st : MonitorState) (cbs : List (Except String Unit)) (app : String)
    (happ : ¬app = "") (heq : ¬some app = st.lastActiveApp) :
    check_and_notify st cbs (some app) =
      ⟨some app, { lastActiveApp := some app, appHistory := pushedHistory st },
        (notify_callbacks cbs
          ⟨(pushedHistory st).getLast?, app⟩).1,
        (notify_callbacks cbs
          ⟨(pushedHistory st).getLast?, app⟩).2⟩ := by
  rw [check_and_notify_some, if_neg happ, has_app_changed_of_ne st app happ heq]
  rfl

theorem runsFrom_cons (o : Option String) (c : String) (l : List String) :
    runsFrom o (c :: l) = if some c = o then runsFrom o l else c :: runsFrom (some c) l := rfl

theorem validProbes_none (rest : List (Option String)) :
    validProbes (none :: rest) = validProbes rest := rfl

theorem validProbes_empty (rest : List (Option String)) :
    validProbes (some "" :: rest) = validProbes rest := rfl

theorem validProbes_cons (app : String) (rest : List (Option String)) (happ : ¬app = "") :
    validProbes (some app :: rest) = app :: validProbes rest := by
  unfold validProbes
  rw [List.filterMap_cons]
  show List.filter _ (app :: _) = _
  rw [List.filter_cons]
  simp [happ]

/-- Main run lemma: from any invariant-satisfying state, the emitted transitions
are the destuttered truthy probe values, each chained to its predecessor. -/
theorem run_probes_chain (probes : List (Option String)) : ∀ st : MonitorState, MInv st →
    (run_probes st probes).2 = chainNotifs st.lastActiveApp (runsFrom st.lastActiveApp (validProbes probes)) := by
  induction probes with
  | nil => intro st _; rfl
  | cons p rest ih =>
    intro st hInv
    rw [run_probes_snd_cons]
    cases p with
    | none =>
      have hc : check_and_notify st [Except.ok ()] none = ⟨none, st, [], []⟩ := rfl
      rw [hc, validProbes_none]
      show (run_probes st rest).2 = _
      exact ih st hInv
    | some app =>
      by_cases happ : app = ""
      · subst happ
        have hc : check_and_notify st [Except.ok ()] (some "") = ⟨none, st, [], []⟩ := rfl
        rw [hc, validProbes_empty]
        show (run_probes st rest).2 = _
        exact ih st hInv
      · by_cases heq : some app = st.lastActiveApp
        · rw [check_skip st _ app happ heq, validProbes_cons app rest happ]
          show (run_probes st rest).2 = _
          rw [runsFrom_cons, if_pos heq]
          exact ih st hInv
        · have hInv' : MInv { lastActiveApp := some app, appHistory := pushedHistory st } :=
            inv_of_change st app happ hInv
          have hih : (run_probes { lastActiveApp := some app, appHistory := pushedHistory st } rest).2
              = chainNotifs (some app) (runsFrom (some app) (validProbes rest)) := ih _ hInv'
          rw [check_fire st _ app happ heq, validProbes_cons app rest happ]
          show ⟨(pushedHistory st).getLast?, app⟩ ::
              (run_probes { lastActiveApp := some app, appHistory := pushedHistory st } rest).2 = _
          rw [hih, previous_of_change st hInv]
          have hrf : runsFrom st.lastActiveApp (app :: validProbes rest)
              = app :: runsFrom (some app) (validProbes rest) := by
            rw [runsFrom_cons, if_neg heq]
          rw [hrf]
          rfl

theorem countRunsFrom_cons (o : Option String) (c : String) (l : List String) :
    countRunsFrom o (c :: l) = (if some c = o then 0 else 1) + countRunsFrom (some c) l := rfl

theorem runsFrom_length (o : Option String) (l : List String) :
    (runsFrom o l).length = countRunsFrom o l := by
  induction l generalizing o with
  | nil => rfl
  | cons c rest ih =>
    rw [runsFrom_cons, countRunsFrom_cons]
    by_cases h : some c = o
    · rw [if_pos h, if_pos h, ih o, ← h, Nat.zero_add]
    · rw [if_neg h, if_neg h]
      show (runsFrom (some c) rest).length + 1 = 1 + countRunsFrom (some c) rest
      rw [ih (some c), Nat.add_comm]

/-- C2. For every sequence of probe results, `check_and_notify` emits exactly
one transition per maximal run of equal consecutive truthy values, and the
`previous` field of each transition is the `current` of the one before it
(`none` for the first). -/
theorem focus_transitions_per_run (probes : List (Option String)) :
    (run_probes initMonitor probes).2
        = chainNotifs none (runsFrom none (validProbes probes))
      ∧ (run_probes initMonitor probes).2.length = countRuns (validProbes probes) := by
  have h := run_probes_chain probes initMonitor initMonitor_inv
  constructor
  · exact h
  · rw [h]
    have hlen : ∀ (o : Option String) (l : List String),
        (chainNotifs o l).length = l.length := by
      intro o l
      induction l generalizing o with
      | nil => rfl
      | cons c rest ih => simp [chainNotifs, ih]
    rw [hlen, runsFrom_length]
    rfl

theorem notify_callbacks_fst (cbs : List (Except String Unit)) (notif : Notification) :
    (notify_callbacks cbs notif).1 = List.replicate cbs.length notif := by
  induction cbs with
  | nil => rfl
  | cons r rest ih =>
    cases r with
    | ok u =>
      show notif :: (notify_callbacks rest notif).1 = _
      rw [ih]
      rfl
    | error e =>
      show notif :: (notify_callbacks rest notif).1 = _
      rw [ih]
      rfl

theorem check_state_independent (st : MonitorState) (probe : Option String)
    (cbs cbs' : List (Except String Unit)) :
    (check_and_notify st cbs probe).changedApp = (check_and_notify st cbs' probe).changedApp
      ∧ (check_and_notify st cbs probe).state = (check_and_notify st cbs' probe).state := by
  cases probe with
  | none => exact ⟨rfl, rfl⟩
  | some app =>
    by_cases happ : app = ""
    · subst happ
      exact ⟨rfl, rfl⟩
    · rw [check_and_notify_some, check_and_notify_some, if_neg happ, if_neg happ]
      by_cases hch : (has_app_changed st app).1 = true
      · rw [if_pos hch, if_pos hch]
        exact ⟨rfl, rfl⟩
      · rw [if_neg hch, if_neg hch]
        exact ⟨rfl, rfl⟩

/-- C8. A raising subscriber never prevents the others from being notified and
never alters the detector's state: the return value and post-state do not
depend on which callbacks raise, and on a transition every registered callback
receives the same `(previous, current)` pair. -/
theorem subscriber_error_isolated (st : MonitorState) (probe : Option String)
    (cbs cbs' : List (Except String Unit)) :
    ((check_and_notify st cbs probe).changedApp = (check_and_notify st cbs' probe).changedApp
      ∧ (check_and_notify st cbs probe).state = (check_and_notify st cbs' probe).state)
    ∧ (∀ app : String, (check_and_notify st cbs probe).changedApp = some app →
        (check_and_notify st cbs probe).invocations =
          List.replicate cbs.length
            ⟨get_last_app (check_and_notify st cbs probe).state, app⟩) := by
  refine ⟨check_state_independent st probe cbs cbs', ?_⟩
  intro app hfire
  cases probe with
  | none => cases hfire
  | some a =>
    by_cases happ : a = ""
    · subst happ
      cases hfire
    · rw [check_and_notify_some, if_neg happ] at hfire ⊢
      by_cases hch : (has_app_changed st a).1 = true
      · rw [if_pos hch] at hfire ⊢
        have happ : a = app := by
          have : some a = some app := hfire
          injection this
        subst happ
        show (notify_callbacks cbs ⟨get_last_app (has_app_changed st a).2, a⟩).1 = _
        rw [notify_callbacks_fst]
      · rw [if_neg hch] at hfire
        cases hfire

/-- Witness for C8 at a concrete input: one raising subscriber, probe `"A"`. -/
theorem subscriber_error_isolated_witness :
    (check_and_notify initMonitor [Except.error "boom"] (some "A")).invocations =
      List.replicate 1
        ⟨get_last_app (check_and_notify initMonitor [Except.error "boom"] (some "A")).state,
          "A"⟩ :=
  (subscriber_error_isolated initMonitor (some "A") [Except.error "boom"] []).2 "A" (by decide)

theorem add_to_history_length (h : List String) (a : String) (hle : h.length ≤ maxHistory) :
    (add_to_history h a).length ≤ maxHistory := by
  unfold add_to_history
  by_cases hl : (h ++ [a]).length > maxHistory
  · rw [if_pos hl]
    rw [List.length_tail, List.length_append]
    simp only [List.length_singleton]
    omega
  · rw [if_neg hl]
    omega

theorem foldl_add_to_history_drop (apps : List String) : ∀ h : List String,
    h.length ≤ maxHistory →
    List.foldl add_to_history h apps = (h ++ apps).drop ((h ++ apps).length - maxHistory) := by
  induction apps with
  | nil =>
    intro h hle
    have : h.length - maxHistory = 0 := by omega
    simp [this]
  | cons a rest ih =>
    intro h hle
    show List.foldl add_to_history (add_to_history h a) rest = _
    by_cases hl : (h ++ [a]).length > maxHistory
    · have hlen : h.length = maxHistory := by
        rw [List.length_append, List.length_singleton] at hl
        omega
      have hne : h ++ [a] ≠ [] := by simp
      have hstep : add_to_history h a = (h ++ [a]).tail := by
        unfold add_to_history
        rw [if_pos hl]
      have htl : ((h ++ [a]).tail).length ≤ maxHistory := by
        rw [List.length_tail, List.length_append, List.length_singleton]
        omega
      rw [hstep, ih _ htl]
      have h1 : (h ++ [a]).tail ++ rest = ((h ++ [a]) ++ rest).tail :=
        (List.tail_append_of_ne_nil hne).symm
      rw [h1]
      have h2 : ((h ++ [a]) ++ rest).tail = ((h ++ [a]) ++ rest).drop 1 := by
        rw [List.drop_one]
      rw [h2, List.drop_drop]
      have h3 : (h ++ [a]) ++ rest = h ++ (a :: rest) := by
        rw [List.append_assoc]
        rfl
      rw [h3]
      congr 1
      rw [List.length_drop]
      simp only [List.length_append, List.length_singleton, List.length_cons]
      omega
    · have hstep : add_to_history h a = h ++ [a] := by
        unfold add_to_history
        rw [if_neg hl]
      have hle' : (h ++ [a]).length ≤ maxHistory := by omega
      rw [hstep, ih _ hle']
      have h3 : (h ++ [a]) ++ rest = h ++ (a :: rest) := by
        rw [List.append_assoc]
        rfl
      rw [h3]

theorem pushedHistory_length (st : MonitorState) (hle : st.appHistory.length ≤ maxHistory) :
    (pushedHistory st).length ≤ maxHistory := by
  unfold pushedHistory
  cases st.lastActiveApp with
  | none => exact hle
  | some prev =>
    show (if prev ≠ "" then add_to_history st.appHistory prev else st.appHistory).length
        ≤ maxHistory
    by_cases hprev : prev ≠ ""
    · rw [if_pos hprev]
      exact add_to_history_length _ _ hle
    · rw [if_neg hprev]
      exact hle

theorem check_history_length (st : MonitorState) (cbs : List (Except String Unit))
    (probe : Option String) (hle : st.appHistory.length ≤ maxHistory) :
    (check_and_notify st cbs probe).state.appHistory.length ≤ maxHistory := by
  cases probe with
  | none => exact hle
  | some app =>
    by_cases happ : app = ""
    · subst happ
      exact hle
    · rw [check_and_notify_some, if_neg happ]
      by_cases hch : (has_app_changed st app).1 = true
      · rw [if_pos hch]
        show (has_app_changed st app).2.appHistory.length ≤ maxHistory
        by_cases heq : some app = st.lastActiveApp
        · rw [has_app_changed_of_eq st app heq]
          exact hle
        · rw [has_app_changed_of_ne st app happ heq]
          exact pushedHistory_length st hle
      · rw [if_neg hch]
        show (has_app_changed st app).2.appHistory.length ≤ maxHistory
        by_cases heq : some app = st.lastActiveApp
        · rw [has_app_changed_of_eq st app heq]
          exact hle
        · rw [has_app_changed_of_ne st app happ heq]
          exact pushedHistory_length st hle

theorem run_probes_history_le (probes : List (Option String)) : ∀ st : MonitorState,
    st.appHistory.length ≤ maxHistory →
    (run_probes st probes).1.appHistory.length ≤ maxHistory := by
  induction probes with
  | nil => intro st hle; exact hle
  | cons p rest ih =>
    intro st hle
    rw [run_probes_fst_cons]
    exact ih _ (check_history_length st _ p hle)

/-- C9. The app-history buffer holds the last at-most-10 pushed entries in
insertion order (oldest evicted first), and through any probe sequence its
length never exceeds 10. -/
theorem history_bounded_fifo :
    (∀ apps : List String,
        List.foldl add_to_history [] apps = apps.drop (apps.length - maxHistory))
    ∧ (∀ probes : List (Option String),
        (run_probes initMonitor probes).1.appHistory.length ≤ maxHistory) := by
  constructor
  · intro apps
    have h := foldl_add_to_history_drop apps [] (by simp [maxHistory])
    simpa using h
  · intro probes
    exact run_probes_history_le probes initMonitor (by simp [initMonitor, maxHistory])

/-! ### OBSController (src/obs_controller.py) -/

/-- The `obs` section of a configuration dictionary, as the controller reads it:
`config.get("obs", {}).get(key)` yields `none` for a missing key. The
controller touches no other part of the configuration. -/
structure ObsSettings where
  host : Option String
  port : Option Int
  password : Option String
deriving DecidableEq, Repr

/-- A remote request issued over the websocket transport. -/
inductive Request where
  | getSceneList
  | setCurrentProgramScene (name : String)
deriving DecidableEq, Repr

def isGetSceneList : Request → Bool
  | .getSceneList => true
  | _ => false

def isSetScene : Request → Bool
  | .setCurrentProgramScene _ => true
  | _ => false

/-- Outcomes the remote side would give to the controller's calls: whether the
transport connect succeeds, the scene list returned by `GetSceneList` during
`connect` and during the in-switch refresh (`none` models a raised transport
error), whether `SetCurrentProgramScene` succeeds, and whether the transport
`disconnect` raises. -/
structure World where
  connectOk : Bool
  connectScenes : Option (List String)
  refreshScenes : Option (List String)
  switchOk : Bool
  disconnectRaises : Bool
deriving DecidableEq, Repr

/-- Mutable state of `OBSController`: the connection handle (`self.client`),
the cached scene list, the reconnect counter, and the configuration. -/
structure OBSState where
  config : ObsSettings
  client : Option Unit
  availableScenes : List String
  reconnectAttempts : Nat
deriving DecidableEq, Repr

/-- `self.max_reconnect_attempts = 10` (advisory ceiling, logging only). -/
def maxReconnectAttempts : Nat := 10

/-- `OBSController.__init__` with a given configuration. -/
def initOBS (cfg : ObsSettings) : OBSState :=
  { config := cfg, client := none, availableScenes := [], reconnectAttempts := 0 }

/-- `OBSController._update_available_scenes`: no-op when disconnected; on a
successful `GetSceneList` replaces the cache; a raised transport error is
caught and empties the cache. Also returns the requests issued. -/
def update_available_scenes (st : OBSState) (res : Option (List String)) :
    OBSState × List Request :=
  match st.client with
  | none => (st, [])
  | some _ =>
    match res with
    | some scenes => ({ st with availableScenes := scenes }, [Request.getSceneList])
    | none => ({ st with availableScenes := [] }, [Request.getSceneList])

/-- Result of `connect` / `switch_scene`: the boolean return value, the state
afterwards, and the remote requests issued. -/
structure CallResult where
  ok : Bool
  state : OBSState
  requests : List Request
deriving DecidableEq, Repr

/-- `OBSController.connect`: on transport success stores the handle, zeroes the
reconnect counter and eagerly refreshes the cache; on failure clears the handle
and increments the counter. -/
def connect (st : OBSState) (w : World) : CallResult :=
  if w.connectOk then
    let st1 := { st with client := some (), reconnectAttempts := 0 }
    let u := update_available_scenes st1 w.connectScenes
    { ok := true, state := u.1, requests := u.2 }
  else
    { ok := false,
      state := { st with client := none, reconnectAttempts := st.reconnectAttempts + 1 },
      requests := [] }

/-- `OBSController.disconnect`: when a handle is present, call the transport
disconnect (any raised error is caught), then always clear the handle and the
cache in the `finally` block; when no handle is present, do nothing at all. -/
def disconnect (st : OBSState) (_transportRaises : Bool) : OBSState :=
  match st.client with
  | some _ => { st with client := none, availableScenes := [] }
  | none => st

/-- Body of `OBSController.switch_scene` once a handle is present (the `try`
block): validate against the cache, refreshing once when the name is absent;
fail without the switch request when still absent; otherwise issue the switch,
and on a raised transport error clear the handle and return failure. -/
def switch_scene_body (st : OBSState) (w : World) (name : String)
    (pre : List Request) : CallResult :=
  let v := if name ∈ st.availableScenes then (st, ([] : List Request))
           else update_available_scenes st w.refreshScenes
  if name ∈ v.1.availableScenes then
    if w.switchOk then
      { ok := true, state := v.1,
        requests := pre ++ v.2 ++ [Request.setCurrentProgramScene name] }
    else
      { ok := false, state := { v.1 with client := none },
        requests := pre ++ v.2 ++ [Request.setCurrentProgramScene name] }
  else
    { ok := false, state := v.1, requests := pre ++ v.2 }

/-- `OBSController.switch_scene`: connect first when no handle is present,
propagating a connect failure; then run the validated switch. -/
def switch_scene (st : OBSState) (w : World) (name : String) : CallResult :=
  match st.client with
  | none =>
    let c := connect st w
    if c.ok then switch_scene_body c.state w name c.requests
    else { ok := false, state := c.state, requests := c.requests }
  | some _ => switch_scene_body st w name []

/-- `OBSController.get_available_scenes`: refresh first when the cache is
empty, then return a copy of the cache. -/
def get_available_scenes (st : OBSState) (res : Option (List String)) :
    List String × OBSState :=
  if st.availableScenes.isEmpty then
    let u := update_available_scenes st res
    (u.1.availableScenes, u.1)
  else (st.availableScenes, st)

/-- The connection-settings comparison of `OBSController.update_config`. -/
def connection_changed (oldCfg newCfg : ObsSettings) : Bool :=
  decide (oldCfg.host ≠ newCfg.host) || decide (oldCfg.port ≠ newCfg.port)
    || decide (oldCfg.password ≠ newCfg.password)

/-- `OBSController.update_config`: always store the new configuration; when
host, port or password changed, disconnect and reconnect, returning the
reconnect result; otherwise return success. -/
def update_config (st : OBSState) (w : World) (newCfg : ObsSettings) : Bool × OBSState :=
  let changed := connection_changed st.config newCfg
  let st1 := { st with config := newCfg }
  if changed then
    let st2 := disconnect st1 w.disconnectRaises
    let c := connect st2 w
    (c.ok, c.state)
  else (true, st1)

/-- The public interface of `OBSController`, each operation bundled with the
remote outcomes it consumes. -/
inductive Op where
  | connectOp (w : World)
  | disconnectOp (raises : Bool)
  | switchSceneOp (w : World) (name : String)
  | getCurrentSceneOp
  | getAvailableScenesOp (res : Option (List String))
  | isConnectedOp
  | updateConfigOp (w : World) (cfg : ObsSettings)
  | resetReconnectCounterOp
  | getStatsOp
deriving DecidableEq, Repr

/-- State transition of one public operation (`get_current_scene`,
`is_connected` and `get_stats` read but never write the session state;
`reset_reconnect_counter` zeroes the counter). -/
def step (st : OBSState) : Op → OBSState
  | .connectOp w => (connect st w).state
  | .disconnectOp raises => disconnect st raises
  | .switchSceneOp w name => (switch_scene st w name).state
  | .getCurrentSceneOp => st
  | .getAvailableScenesOp res => (get_available_scenes st res).2
  | .isConnectedOp => st
  | .updateConfigOp w cfg => (update_config st w cfg).2
  | .resetReconnectCounterOp => { st with reconnectAttempts := 0 }
  | .getStatsOp => st

def run_ops (st : OBSState) (ops : List Op) : OBSState := ops.foldl step st

/-- Whether executing `op` on `st` performs a successful transport connect
(directly, or internally from `switch_scene` / `update_config`). -/
def performsSuccessfulConnect (st : OBSState) (op : Op) : Bool :=
  match op with
  | .connectOp w => w.connectOk
  | .switchSceneOp w _ => st.client.isNone && w.connectOk
  | .updateConfigOp w cfg => connection_changed st.config cfg && w.connectOk
  | _ => false

/-! Frame lemmas for the controller. -/

theorem update_scenes_frame (st : OBSState) (res : Option (List String)) :
    (update_available_scenes st res).1.client = st.client
      ∧ (update_available_scenes st res).1.reconnectAttempts = st.reconnectAttempts
      ∧ (update_available_scenes st res).1.config = st.config := by
  obtain ⟨cfg, cl, scenes, ra⟩ := st
  cases cl with
  | none => exact ⟨rfl, rfl, rfl⟩
  | some u =>
    cases res with
    | none => exact ⟨rfl, rfl, rfl⟩
    | some s => exact ⟨rfl, rfl, rfl⟩

theorem update_scenes_connected (st : OBSState) (res : Option (List String))
    (hc : st.client = some ()) :
    update_available_scenes st res
      = ({ st with availableScenes := res.getD [] }, [Request.getSceneList]) := by
  obtain ⟨cfg, cl, scenes, ra⟩ := st
  have hc' : cl = some () := hc
  subst hc'
  cases res with
  | none => rfl
  | some s => rfl

theorem connect_fail_state (st : OBSState) (w : World) (hw : w.connectOk = false) :
    connect st w =
      { ok := false,
        state := { st with client := none, reconnectAttempts := st.reconnectAttempts + 1 },
        requests := [] } := by
  unfold connect
  rw [hw]
  rfl

theorem connect_ok_counter (st : OBSState) (w : World) (hw : w.connectOk = true) :
    (connect st w).state.reconnectAttempts = 0 := by
  unfold connect
  rw [hw]
  show (update_available_scenes
      { st with client := some (), reconnectAttempts := 0 } w.connectScenes).1.reconnectAttempts = 0
  exact (update_scenes_frame _ _).2.1

theorem disconnect_frame (st : OBSState) (r : Bool) :
    (disconnect st r).reconnectAttempts = st.reconnectAttempts
      ∧ (disconnect st r).config = st.config := by
  obtain ⟨cfg, cl, scenes, ra⟩ := st
  cases cl with
  | none => exact ⟨rfl, rfl⟩
  | some u => exact ⟨rfl, rfl⟩

theorem switch_scene_connected (st : OBSState) (w : World) (name : String)
    (hc : st.client = some ()) :
    switch_scene st w name = switch_scene_body st w name [] := by
  obtain ⟨cfg, cl, scenes, ra⟩ := st
  have hc' : cl = some () := hc
  subst hc'
  rfl

theorem switch_scene_disconnected (st : OBSState) (w : World) (name : String)
    (hc : st.client = none) :
    switch_scene st w name =
      if (connect st w).ok then switch_scene_body (connect st w).state w name (connect st w).requests
      else { ok := false, state := (connect st w).state, requests := (connect st w).requests } := by
  obtain ⟨cfg, cl, scenes, ra⟩ := st
  have hc' : cl = none := hc
  subst hc'
  rfl

theorem switch_scene_body_hit (st : OBSState) (w : World) (name : String)
    (pre : List Request) (hmem : name ∈ st.availableScenes) :
    switch_scene_body st w name pre =
      if w.switchOk then
        { ok := true, state := st, requests := pre ++ [Request.setCurrentProgramScene name] }
      else
        { ok := false, state := { st with client := none },
          requests := pre ++ [Request.setCurrentProgramScene name] } := by
  unfold switch_scene_body
  rw [if_pos hmem]
  show (if name ∈ st.availableScenes then _ else _) = _
  rw [if_pos hmem]
  by_cases hsw : w.switchOk = true
  · rw [if_pos hsw, if_pos hsw]
    show CallResult.mk true st (pre ++ [] ++ [Request.setCurrentProgramScene name]) = _
    rw [List.append_nil]
  · rw [if_neg hsw, if_neg hsw]
    show CallResult.mk false { st with client := none }
      (pre ++ [] ++ [Request.setCurrentProgramScene name]) = _
    rw [List.append_nil]

theorem switch_scene_body_miss (st : OBSState) (w : World) (name : String)
    (pre : List Request) (hc : st.client = some ()) (hmem : name ∉ st.availableScenes) :
    switch_scene_body st w name pre =
      (if name ∈ w.refreshScenes.getD [] then
        if w.switchOk then
          { ok := true, state := { st with availableScenes := w.refreshScenes.getD [] },
            requests := pre ++ [Request.getSceneList, Request.setCurrentProgramScene name] }
        else
          { ok := false,
            state := { st with availableScenes := w.refreshScenes.getD [], client := none },
            requests := pre ++ [Request.getSceneList, Request.setCurrentProgramScene name] }
      else
        { ok := false, state := { st with availableScenes := w.refreshScenes.getD [] },
          requests := pre ++ [Request.getSceneList] }) := by
  unfold switch_scene_body
  rw [if_neg hmem, update_scenes_connected st w.refreshScenes hc]
  show (if name ∈ w.refreshScenes.getD [] then _ else _) = _
  by_cases hres : name ∈ w.refreshScenes.getD []
  · rw [if_pos hres, if_pos hres]
    by_cases hsw : w.switchOk = true
    · rw [if_pos hsw, if_pos hsw]
      have : pre ++ [Request.getSceneList] ++ [Request.setCurrentProgramScene name]
          = pre ++ [Request.getSceneList, Request.setCurrentProgramScene name] := by
        rw [List.append_assoc]
        rfl
      rw [this]
    · rw [if_neg hsw, if_neg hsw]
      have : pre ++ [Request.getSceneList] ++ [Request.setCurrentProgramScene name]
          = pre ++ [Request.getSceneList, Request.setCurrentProgramScene name] := by
        rw [List.append_assoc]
        rfl
      rw [this]
  · rw [if_neg hres, if_neg hres]

/-! Concrete fixtures used by the closed theorems below. -/

def cfgA : ObsSettings := { host := some "localhost", port := some 4455, password := some "" }

def wFail : World :=
  { connectOk := false, connectScenes := none, refreshScenes := none,
    switchOk := true, disconnectRaises := false }

def wRefreshRaise : World :=
  { connectOk := true, connectScenes := some ["sceneA"], refreshScenes := none,
    switchOk := true, disconnectRaises := false }

def wSwitchRaise : World :=
  { connectOk := true, connectScenes := some ["sceneA"], refreshScenes := some ["sceneA"],
    switchOk := false, disconnectRaises := true }

def wOkA : World :=
  { connectOk := true, connectScenes := some ["sceneA"], refreshScenes := some ["sceneA", "sceneB"],
    switchOk := true, disconnectRaises := false }

def stConnA : OBSState :=
  { config := cfgA, client := some (), availableScenes := ["sceneA"], reconnectAttempts := 0 }

/-- C1 (amended to connected sessions). With a handle present, `switch_scene`
refreshes the cache exactly once iff the requested name is absent from it;
when the name is still absent after that single refresh it fails with no
scene-switch request issued; when the name is in the cache it issues exactly
one remote call, the switch itself, with no refresh. -/
theorem switch_scene_cache_policy (st : OBSState) (w : World) (name : String)
    (hc : st.client = some ()) :
    ((switch_scene st w name).requests.countP isGetSceneList
        = if name ∈ st.availableScenes then 0 else 1)
    ∧ (name ∈ st.availableScenes →
        (switch_scene st w name).requests = [Request.setCurrentProgramScene name])
    ∧ (name ∉ st.availableScenes → name ∉ w.refreshScenes.getD [] →
        (switch_scene st w name).ok = false
          ∧ (switch_scene st w name).requests = [Request.getSceneList]) := by
  rw [switch_scene_connected st w name hc]
  by_cases hmem : name ∈ st.availableScenes
  · rw [switch_scene_body_hit st w name [] hmem]
    by_cases hsw : w.switchOk = true
    · rw [if_pos hsw]
      refine ⟨?_, fun _ => rfl, fun hno _ => absurd hmem hno⟩
      rw [if_pos hmem]
      rfl
    · rw [if_neg hsw]
      refine ⟨?_, fun _ => rfl, fun hno _ => absurd hmem hno⟩
      rw [if_pos hmem]
      rfl
  · rw [switch_scene_body_miss st w name [] hc hmem]
    by_cases hres : name ∈ w.refreshScenes.getD []
    · rw [if_pos hres]
      by_cases hsw : w.switchOk = true
      · rw [if_pos hsw]
        refine ⟨?_, fun hyes => absurd hyes hmem, fun _ hno => absurd hres hno⟩
        rw [if_neg hmem]
        rfl
      · rw [if_neg hsw]
        refine ⟨?_, fun hyes => absurd hyes hmem, fun _ hno => absurd hres hno⟩
        rw [if_neg hmem]
        rfl
    · rw [if_neg hres]
      refine ⟨?_, fun hyes => absurd hyes hmem, fun _ _ => ⟨rfl, rfl⟩⟩
      rw [if_neg hmem]
      rfl

/-- Witness for the amended C1: cache hit at a concrete connected session. -/
theorem switch_scene_cache_policy_witness :
    (switch_scene stConnA wOkA "sceneA").requests
      = [Request.setCurrentProgramScene "sceneA"] :=
  (switch_scene_cache_policy stConnA wOkA "sceneA" rfl).2.1 (by decide)

/-- Counterexample to C1 as stated (over every session state): on a
disconnected session whose connect attempt fails, the requested name is absent
from the cached list, yet no cache refresh at all is performed. -/
theorem switch_scene_refresh_cex :
    "x" ∉ (initOBS cfgA).availableScenes
      ∧ (switch_scene (initOBS cfgA) wFail "x").requests.countP isGetSceneList = 0 := by
  decide

/-- C3 (amended): consecutive failed connects add exactly their number to the
counter, any successful connect resets it to 0, and no public operation that
neither is `reset_reconnect_counter` nor performs a successful connect ever
decreases it. -/
theorem reconnect_counter_policy :
    (∀ (st : OBSState) (w : World) (n : Nat), w.connectOk = false →
        (run_ops st (List.replicate n (Op.connectOp w))).reconnectAttempts
          = st.reconnectAttempts + n)
    ∧ (∀ (st : OBSState) (w : World), w.connectOk = true →
        (connect st w).state.reconnectAttempts = 0)
    ∧ (∀ (st : OBSState) (op : Op), op ≠ Op.resetReconnectCounterOp →
        performsSuccessfulConnect st op = false →
        st.reconnectAttempts ≤ (step st op).reconnectAttempts) := by
  refine ⟨?_, ?_, ?_⟩
  · intro st w n hw
    induction n generalizing st with
    | zero => rfl
    | succ k ih =>
      rw [List.replicate_succ]
      show (run_ops (step st (Op.connectOp w)) (List.replicate k (Op.connectOp w))).reconnectAttempts
        = st.reconnectAttempts + (k + 1)
      have hstep : step st (Op.connectOp w)
          = { st with client := none, reconnectAttempts := st.reconnectAttempts + 1 } := by
        show (connect st w).state = _
        rw [connect_fail_state st w hw]
      rw [hstep, ih]
      show st.reconnectAttempts + 1 + k = st.reconnectAttempts + (k + 1)
      omega
  · intro st w hw
    exact connect_ok_counter st w hw
  · intro st op hne hps
    cases op with
    | connectOp w =>
      have hw : w.connectOk = false := hps
      show st.reconnectAttempts ≤ (connect st w).state.reconnectAttempts
      rw [connect_fail_state st w hw]
      show st.reconnectAttempts ≤ st.reconnectAttempts + 1
      omega
    | disconnectOp raises =>
      show st.reconnectAttempts ≤ (disconnect st raises).reconnectAttempts
      rw [(disconnect_frame st raises).1]
    | switchSceneOp w name =>
      show st.reconnectAttempts ≤ (switch_scene st w name).state.reconnectAttempts
      cases hcl : st.client with
      | none =>
        have hw : w.connectOk = false := by
          have h0 : (st.client.isNone && w.connectOk) = false := hps
          rw [hcl] at h0
          simpa using h0
        rw [switch_scene_disconnected st w name hcl, connect_fail_state st w hw]
        show st.reconnectAttempts ≤ st.reconnectAttempts + 1
        omega
      | some u =>
        have hc : st.client = some () := by rw [hcl]
        rw [switch_scene_connected st w name hc]
        by_cases hmem : name ∈ st.availableScenes
        · rw [switch_scene_body_hit st w name [] hmem]
          by_cases hsw : w.switchOk = true
          · rw [if_pos hsw]
          · rw [if_neg hsw]
        · rw [switch_scene_body_miss st w name [] hc hmem]
          by_cases hres : name ∈ w.refreshScenes.getD []
          · rw [if_pos hres]
            by_cases hsw : w.switchOk = true
            · rw [if_pos hsw]
            · rw [if_neg hsw]
          · rw [if_neg hres]
    | getCurrentSceneOp => exact Nat.le_refl _
    | getAvailableScenesOp res =>
      show st.reconnectAttempts ≤ (get_available_scenes st res).2.reconnectAttempts
      unfold get_available_scenes
      by_cases hemp : st.availableScenes.isEmpty = true
      · rw [if_pos hemp]
        rw [(update_scenes_frame st res).2.1]
      · rw [if_neg hemp]
    | isConnectedOp => exact Nat.le_refl _
    | updateConfigOp w cfg =>
      show st.reconnectAttempts ≤ (update_config st w cfg).2.reconnectAttempts
      unfold update_config
      by_cases hch : connection_changed st.config cfg = true
      · have hw : w.connectOk = false := by
          have h0 : (connection_changed st.config cfg && w.connectOk) = false := hps
          rw [hch] at h0
          simpa using h0
        rw [hch]
        show st.reconnectAttempts
          ≤ (connect (disconnect { st with config := cfg } w.disconnectRaises) w).state.reconnectAttempts
        rw [connect_fail_state _ w hw]
        show st.reconnectAttempts
          ≤ (disconnect { st with config := cfg } w.disconnectRaises).reconnectAttempts + 1
        rw [(disconnect_frame _ _).1]
        show st.reconnectAttempts ≤ st.reconnectAttempts + 1
        omega
      · have hch' : connection_changed st.config cfg = false := by
          cases h : connection_changed st.config cfg with
          | true => exact absurd h hch
          | false => rfl
        rw [hch']
        show st.reconnectAttempts ≤ st.reconnectAttempts
        exact Nat.le_refl _
    | resetReconnectCounterOp => exact absurd rfl hne
    | getStatsOp => exact Nat.le_refl _

/-- Witness for the amended C3: three failed connects from a fresh session. -/
theorem reconnect_counter_policy_witness :
    (run_ops (initOBS cfgA) (List.replicate 3 (Op.connectOp wFail))).reconnectAttempts
      = (initOBS cfgA).reconnectAttempts + 3 :=
  reconnect_counter_policy.1 (initOBS cfgA) wFail 3 rfl

/-- Counterexample to C3 as stated: the public `reset_reconnect_counter`
operation is not a successful connect, yet it decreases the counter. -/
theorem reset_counter_decreases :
    (step (initOBS cfgA) (Op.connectOp wFail)).reconnectAttempts = 1
      ∧ (step (step (initOBS cfgA) (Op.connectOp wFail))
            Op.resetReconnectCounterOp).reconnectAttempts
          < (step (initOBS cfgA) (Op.connectOp wFail)).reconnectAttempts := by
  decide

/-- C4 (amended). On a connected session, a transport failure while issuing
the switch request itself clears the handle and returns failure; a transport
failure during the in-switch cache refresh is swallowed by the refresh: the
cache becomes empty, the handle is kept, no switch request is issued, and the
call fails as scene-not-found. -/
theorem transport_failure_effects :
    (∀ (st : OBSState) (w : World) (name : String), st.client = some () →
        w.switchOk = false →
        (name ∈ st.availableScenes ∨ name ∈ w.refreshScenes.getD []) →
        (switch_scene st w name).ok = false
          ∧ (switch_scene st w name).state.client = none)
    ∧ (∀ (st : OBSState) (w : World) (name : String), st.client = some () →
        name ∉ st.availableScenes → w.refreshScenes = none →
        (switch_scene st w name).ok = false
          ∧ (switch_scene st w name).state.client = some ()
          ∧ (switch_scene st w name).state.availableScenes = []
          ∧ (switch_scene st w name).requests.countP isSetScene = 0) := by
  constructor
  · intro st w name hc hsw hmem
    rw [switch_scene_connected st w name hc]
    by_cases hhit : name ∈ st.availableScenes
    · rw [switch_scene_body_hit st w name [] hhit, if_neg (by rw [hsw]; exact Bool.false_ne_true)]
      exact ⟨rfl, rfl⟩
    · have hres : name ∈ w.refreshScenes.getD [] := hmem.resolve_left hhit
      rw [switch_scene_body_miss st w name [] hc hhit, if_pos hres,
        if_neg (by rw [hsw]; exact Bool.false_ne_true)]
      exact ⟨rfl, rfl⟩
  · intro st w name hc hmem hres
    rw [switch_scene_connected st w name hc]
    have hempty : w.refreshScenes.getD [] = [] := by rw [hres]; rfl
    have hnot : name ∉ w.refreshScenes.getD [] := by rw [hempty]; exact List.not_mem_nil name
    rw [switch_scene_body_miss st w name [] hc hmem, if_neg hnot]
    refine ⟨rfl, hc, ?_, ?_⟩
    · show w.refreshScenes.getD [] = []
      exact hempty
    · rfl

/-- Witness for the amended C4: the switch request itself fails on a connected
session; the handle is cleared and failure is returned. -/
theorem transport_failure_effects_witness :
    (switch_scene stConnA wSwitchRaise "sceneA").ok = false
      ∧ (switch_scene stConnA wSwitchRaise "sceneA").state.client = none :=
  transport_failure_effects.1 stConnA wSwitchRaise "sceneA" rfl rfl (Or.inl (by decide))

/-- Counterexample to C4 as stated: a transport failure during the cache
refresh (scene absent from the cache) returns failure but does not clear the
connection handle. -/
theorem refresh_failure_keeps_handle_cex :
    (switch_scene stConnA wRefreshRaise "sceneB").ok = false
      ∧ (switch_scene stConnA wRefreshRaise "sceneB").state.client = some () := by
  decide

/-- C5 (amended). With a handle present, `disconnect` always clears the handle
and empties the cache, and a raised transport error changes nothing about
that; with no handle present, `disconnect` is a no-op that leaves the cache as
it was. -/
theorem disconnect_clears_when_connected :
    (∀ (st : OBSState) (r : Bool), st.client.isSome = true →
        (disconnect st r).client = none ∧ (disconnect st r).availableScenes = [])
    ∧ (∀ (st : OBSState) (r r' : Bool), disconnect st r = disconnect st r')
    ∧ (∀ (st : OBSState) (r : Bool), st.client = none → disconnect st r = st) := by
  refine ⟨?_, ?_, ?_⟩
  · intro st r hc
    obtain ⟨cfg, cl, scenes, ra⟩ := st
    cases cl with
    | none => exact absurd hc (by simp)
    | some u => exact ⟨rfl, rfl⟩
  · intro st r r'
    obtain ⟨cfg, cl, scenes, ra⟩ := st
    cases cl with
    | none => rfl
    | some u => rfl
  · intro st r hc
    obtain ⟨cfg, cl, scenes, ra⟩ := st
    have hc' : cl = none := hc
    subst hc'
    rfl

/-- Witness for the amended C5 at a concrete connected session. -/
theorem disconnect_clears_when_connected_witness :
    (disconnect stConnA true).client = none
      ∧ (disconnect stConnA true).availableScenes = [] :=
  disconnect_clears_when_connected.1 stConnA true rfl

/-- Counterexample to C5 as stated: after a failed switch the handle is gone
but the cache is not empty (reachable state), and `disconnect` then leaves the
cache untouched instead of emptying it. -/
theorem disconnect_noop_cex :
    (switch_scene stConnA wSwitchRaise "sceneA").state.client = none
      ∧ (disconnect (switch_scene stConnA wSwitchRaise "sceneA").state true).availableScenes
          = ["sceneA"] := by
  decide

/-- C7. `update_config` with unchanged host/port/password is a no-op on the
session (success, handle, cache and counter untouched, only the stored
configuration replaced); with any of them changed it disconnects, reconnects
and returns the reconnect result. -/
theorem update_config_policy (st : OBSState) (w : World) (c : ObsSettings) :
    (connection_changed st.config c = false →
        (update_config st w c).1 = true
          ∧ (update_config st w c).2.client = st.client
          ∧ (update_config st w c).2.availableScenes = st.availableScenes
          ∧ (update_config st w c).2.reconnectAttempts = st.reconnectAttempts
          ∧ (update_config st w c).2.config = c)
    ∧ (connection_changed st.config c = true →
        (update_config st w c).1
            = (connect (disconnect { st with config := c } w.disconnectRaises) w).ok
          ∧ (update_config st w c).2
            = (connect (disconnect { st with config := c } w.disconnectRaises) w).state) := by
  constructor
  · intro hsame
    unfold update_config
    rw [hsame]
    exact ⟨rfl, rfl, rfl, rfl, rfl⟩
  · intro hdiff
    unfold update_config
    rw [hdiff]
    exact ⟨rfl, rfl⟩

/-- Witness for C7: unchanged settings at a concrete connected session. -/
theorem update_config_policy_witness :
    (update_config stConnA wFail cfgA).1 = true
      ∧ (update_config stConnA wFail cfgA).2.client = stConnA.client
      ∧ (update_config stConnA wFail cfgA).2.availableScenes = stConnA.availableScenes
      ∧ (update_config stConnA wFail cfgA).2.reconnectAttempts = stConnA.reconnectAttempts
      ∧ (update_config stConnA wFail cfgA).2.config = cfgA :=
  (update_config_policy stConnA wFail cfgA).1 (by decide)

/-! ### ConfigManager (src/config_manager.py) -/

/-- A parsed YAML value as the configuration code distinguishes them: strings,
numbers (Python ints and floats merged into one exact numeric type; numeric
strings are modelled as integer strings) and nested dicts. -/
inductive Y where
  | s (v : String)
  | n (v : Rat)
  | d (entries : List (String × Y))

def dictGet (entries : List (String × Y)) (k : String) : Option Y :=
  (entries.find? (fun e => e.1 == k)).map (fun e => e.2)

/-- `d[k] = v` on a Python dict: replace in place, else append. -/
def dictSet (entries : List (String × Y)) (k : String) (v : Y) : List (String × Y) :=
  if entries.any (fun e => e.1 == k) then
    entries.map (fun e => if e.1 == k then (k, v) else e)
  else entries ++ [(k, v)]

/-- `d.update(u)` on a Python dict. -/
def dictUpdate (d u : List (String × Y)) : List (String × Y) :=
  u.foldl (fun acc e => dictSet acc e.1 e.2) d

/-- The two nested dict objects of the class-level `DEFAULT_CONFIG`. A shallow
`DEFAULT_CONFIG.copy()` shares these objects, and `config[key].update(value)`
mutates them in place, so they are modelled as mutable heap cells. -/
structure Heap where
  obsDefault : List (String × Y)
  mappingsDefault : List (String × Y)

/-- `DEFAULT_CONFIG`'s nested dicts at module import time. -/
def initHeap : Heap :=
  { obsDefault := [("host", .s "localhost"), ("port", .n 4455), ("password", .s "")],
    mappingsDefault :=
      [("Emacs", .s "editor"), ("Alacritty", .s "terminal"), ("Chrome", .s "browser")] }

/-- A value of the outer configuration dict: a plain immutable value or a
reference to one of the shared nested default dicts. -/
inductive V where
  | prim (y : Y)
  | obsRef
  | mapRef

/-- Read a value through the heap. -/
def derefY (h : Heap) : V → Y
  | .prim y => y
  | .obsRef => .d h.obsDefault
  | .mapRef => .d h.mappingsDefault

def lookupV (entries : List (String × V)) (k : String) : Option V :=
  (entries.find? (fun e => e.1 == k)).map (fun e => e.2)

def vSet (entries : List (String × V)) (k : String) (v : V) : List (String × V) :=
  if entries.any (fun e => e.1 == k) then
    entries.map (fun e => if e.1 == k then (k, v) else e)
  else entries ++ [(k, v)]

/-- `DEFAULT_CONFIG.copy()`: a fresh outer dict whose nested dicts are the
shared heap cells. -/
def defaultOuter : List (String × V) :=
  [("obs", .obsRef), ("app_scene_mappings", .mapRef),
   ("polling_interval", .prim (.n (mkRat 1 2))), ("log_level", .prim (.s "INFO")),
   ("log_file", .prim (.s "~/.config/vibeobs/vibeobs.log"))]

/-- The merge loop of `_load_from_file`: for a dict value under an existing
key, `config[key].update(value)` mutates the referenced dict (the heap cell
for the shared defaults); `.update` on a non-dict raises `AttributeError`,
which the surrounding `except` turns into a failed load while earlier
mutations stay; otherwise plain assignment into the fresh outer dict. -/
def mergeUser (cfg : List (String × V)) (h : Heap) :
    List (String × Y) → Except Heap (List (String × V) × Heap)
  | [] => .ok (cfg, h)
  | (k, v) :: rest =>
    match v with
    | .d entries =>
      match lookupV cfg k with
      | some .obsRef =>
        mergeUser cfg { h with obsDefault := dictUpdate h.obsDefault entries } rest
      | some .mapRef =>
        mergeUser cfg { h with mappingsDefault := dictUpdate h.mappingsDefault entries } rest
      | some (.prim (.d old)) =>
        mergeUser (vSet cfg k (.prim (.d (dictUpdate old entries)))) h rest
      | some (.prim _) => .error h
      | none => mergeUser (vSet cfg k (.prim (.d entries))) h rest
    | _ => mergeUser (vSet cfg k (.prim v)) h rest

/-- Python `int(x)` as the validation uses it (truncation and floor are
indistinguishable under the port range check). -/
def pyInt : Y → Option Int
  | .n v => some v.floor
  | .s v => v.toInt?
  | .d _ => none

/-- Python `float(x)`. -/
def pyFloat : Y → Option Rat
  | .n v => some v
  | .s v => (v.toInt?).map (fun i => (i : Rat))
  | .d _ => none

/-- `os.path.expanduser` with the home directory fixed. -/
def expanduser (p : String) : String :=
  if p = "~" then "/root"
  else if p.startsWith "~/" then "/root" ++ p.drop 1
  else p

/-- The `log_file` tilde-expansion step of `_load_from_file`: `"~" in x`
raises `TypeError` on a number and is key membership on a dict;
`expanduser` of a non-string raises. -/
def expandStep (h : Heap) (cfg : List (String × V)) : Except Unit (List (String × V)) :=
  match lookupV cfg "log_file" with
  | none => .ok cfg
  | some v =>
    match derefY h v with
    | .s str =>
      if str.toList.contains '~' then
        .ok (vSet cfg "log_file" (.prim (.s (expanduser str))))
      else .ok cfg
    | .d entries => if entries.any (fun e => e.1 == "~") then .error () else .ok cfg
    | .n _ => .error ()

/-- `ConfigManager._validate_config` over a config dict read through the
heap. -/
def validate_config (h : Heap) (cfg : List (String × V)) : Bool :=
  match (lookupV cfg "obs").map (derefY h) with
  | some (.d obsEntries) =>
    match (lookupV cfg "app_scene_mappings").map (derefY h) with
    | some (.d _) =>
      match dictGet obsEntries "host", dictGet obsEntries "port" with
      | some _, some portV =>
        match pyInt portV with
        | some p =>
          if p < 1 || p > 65535 then false
          else
            match lookupV cfg "polling_interval" with
            | none => true
            | some iv =>
              match pyFloat (derefY h iv) with
              | some f => decide (0 < f.num)
              | none => false
        | none => false
      | _, _ => false
    | _ => false
  | _ => false

/-- The outcome of opening and parsing one YAML file: an IO error, a YAML
parse error, a falsy parse result (`if not user_config`), a truthy non-dict
(`.items()` raises), or a parsed top-level dict. -/
inductive FileRead where
  | readError
  | yamlError
  | empty
  | nonDict
  | parsed (user : List (String × Y))

/-- `ConfigManager._load_from_file`: merge the parsed user dict over a shallow
copy of the defaults, expand `log_file`, validate; any failure yields `None`,
with whatever heap mutations the merge already performed left in place. -/
def load_from_file (h : Heap) (fr : FileRead) : Option (List (String × V)) × Heap :=
  match fr with
  | .readError => (none, h)
  | .yamlError => (none, h)
  | .empty => (none, h)
  | .nonDict => (none, h)
  | .parsed user =>
    match mergeUser defaultOuter h user with
    | .error h1 => (none, h1)
    | .ok (cfg, h1) =>
      match expandStep h1 cfg with
      | .error _ => (none, h1)
      | .ok cfg1 => if validate_config h1 cfg1 then (some cfg1, h1) else (none, h1)

/-- The two candidate configuration file paths of `load`. -/
inductive CPath where
  | localPath
  | userPath
deriving DecidableEq, Repr

/-- Mutable state of `ConfigManager`: the recorded config path, its recorded
mtime, and the active configuration dict. -/
structure CMState where
  actualConfigPath : Option CPath
  configMtime : Option Int
  config : List (String × V)

/-- `ConfigManager.__init__`. -/
def initCM : CMState := { actualConfigPath := none, configMtime := none, config := [] }

/-- What the filesystem holds at the two candidate paths. -/
structure FS where
  localExists : Bool
  localFile : FileRead
  localMtime : Int
  userExists : Bool
  userFile : FileRead
  userMtime : Int

/-- Second iteration of the `load` loop (the user config path), with the
defaults fallback that records no path. -/
def load_snd (st : CMState) (h : Heap) (fs : FS) :
    Option (List (String × V)) × CMState × Heap :=
  if fs.userExists then
    match load_from_file h fs.userFile with
    | (some cfg, h1) =>
      (some cfg,
        { st with
            actualConfigPath := some .userPath,
            configMtime := some fs.userMtime,
            config := cfg },
        h1)
    | (none, h1) => (some defaultOuter, { st with config := defaultOuter }, h1)
  else (some defaultOuter, { st with config := defaultOuter }, h)

/-- `ConfigManager.load`: try the local `config.yaml`, then the user path; on
the first success record path and mtime and store the config; otherwise fall
back to a shallow copy of the defaults. -/
def load (st : CMState) (h : Heap) (fs : FS) :
    Option (List (String × V)) × CMState × Heap :=
  if fs.localExists then
    match load_from_file h fs.localFile with
    | (some cfg, h1) =>
      (some cfg,
        { st with
            actualConfigPath := some .localPath,
            configMtime := some fs.localMtime,
            config := cfg },
        h1)
    | (none, h1) => load_snd st h1 fs
  else load_snd st h fs

/-- `ConfigManager.has_changed`: `False` when no path was recorded or the
recorded path no longer exists; otherwise an mtime comparison. -/
def has_changed (st : CMState) (fs : FS) : Bool :=
  match st.actualConfigPath with
  | none => false
  | some .localPath =>
    if fs.localExists then decide (some fs.localMtime ≠ st.configMtime) else false
  | some .userPath =>
    if fs.userExists then decide (some fs.userMtime ≠ st.configMtime) else false

/-- `ConfigManager.reload`: fail when no path was recorded; otherwise reload
from the recorded path, replacing the stored config only on success. -/
def reload (st : CMState) (h : Heap) (fs : FS) : Bool × CMState × Heap :=
  match st.actualConfigPath with
  | none => (false, st, h)
  | some p =>
    let fr := match p with | .localPath => fs.localFile | .userPath => fs.userFile
    let mt := match p with | .localPath => fs.localMtime | .userPath => fs.userMtime
    match load_from_file h fr with
    | (some cfg, h1) => (true, { st with config := cfg, configMtime := some mt }, h1)
    | (none, h1) => (false, st, h1)

/-- The configuration as its consumers observe it: outer lookup followed by
dereference of the shared nested dicts. -/
def effectiveGet (h : Heap) (cfg : List (String × V)) (k : String) : Option Y :=
  (lookupV cfg k).map (derefY h)

/-! Concrete scenario for the reload claim. -/

/-- Filesystem at first load: only the user config exists, a valid override
`obs: \x7bport: 4456\x7d`. -/
def fsFirst : FS :=
  { localExists := false, localFile := .readError, localMtime := 0,
    userExists := true, userFile := .parsed [("obs", .d [("port", .n 4456)])],
    userMtime := 100 }

/-- Filesystem at reload time: the user config now holds the out-of-range
`obs: \x7bport: 99999\x7d`, which parses but fails validation. -/
def fsBad : FS :=
  { localExists := false, localFile := .readError, localMtime := 0,
    userExists := true, userFile := .parsed [("obs", .d [("port", .n 99999)])],
    userMtime := 200 }

def loadedState : CMState := (load initCM initHeap fsFirst).2.1

def loadedHeap : Heap := (load initCM initHeap fsFirst).2.2

/-- C6 refuted by the code at a concrete input: after a successful initial
load, a reload whose YAML parses but fails validation returns failure and
leaves the outer config object in place, yet the active configuration's
effective `obs` section has changed — the merge step mutated the nested
`obs` dict that `DEFAULT_CONFIG.copy()` shares with the active config. -/
theorem reload_failure_mutates_active_config :
    (effectiveGet loadedHeap loadedState.config "obs"
        = some (.d [("host", .s "localhost"), ("port", .n 4456), ("password", .s "")]))
      ∧ (reload loadedState loadedHeap fsBad).1 = false
      ∧ (reload loadedState loadedHeap fsBad).2.1.config = loadedState.config
      ∧ (effectiveGet (reload loadedState loadedHeap fsBad).2.2
            (reload loadedState loadedHeap fsBad).2.1.config "obs"
          = some (.d [("host", .s "localhost"), ("port", .n 99999), ("password", .s "")])) := by
  refine ⟨?_, ?_, ?_, ?_⟩ <;> rfl

/-- Filesystem with no configuration file at either path. -/
def fsNone : FS :=
  { localExists := false, localFile := .readError, localMtime := 0,
    userExists := false, userFile := .readError, userMtime := 0 }

/-- C10. When no config-file path was recorded, `has_changed` is `False`
whatever the disk now holds; a fresh load that finds no file falls back to the
defaults and records no path; and `reload` is then a failing no-op, so
hot-reload can never trigger while running on defaults. -/
theorem defaults_never_hot_reload :
    (∀ (st : CMState) (fs : FS), st.actualConfigPath = none → has_changed st fs = false)
    ∧ (∀ (h : Heap) (fs : FS), fs.localExists = false → fs.userExists = false →
        (load initCM h fs).2.1.actualConfigPath = none
          ∧ (load initCM h fs).2.1.config = defaultOuter)
    ∧ (∀ (st : CMState) (h : Heap) (fs : FS), st.actualConfigPath = none →
        reload st h fs = (false, st, h)) := by
  refine ⟨?_, ?_, ?_⟩
  · intro st fs hnone
    unfold has_changed
    rw [hnone]
  · intro h fs hl hu
    have h1 : load initCM h fs = load_snd initCM h fs := by
      unfold load
      rw [hl]
      rfl
    have h2 : load_snd initCM h fs
        = (some defaultOuter, { initCM with config := defaultOuter }, h) := by
      unfold load_snd
      rw [hu]
      rfl
    rw [h1, h2]
    exact ⟨rfl, rfl⟩
  · intro st h fs hnone
    unfold reload
    rw [hnone]

/-- Witness for C10 at a concrete defaults-only manager. -/
theorem defaults_never_hot_reload_witness :
    has_changed (load initCM initHeap fsNone).2.1 fsBad = false :=
  defaults_never_hot_reload.1 (load initCM initHeap fsNone).2.1 fsBad
    ((defaults_never_hot_reload.2.1 initHeap fsNone rfl rfl).1)
